import Mathlib

-- Shallow embedding of src/app.js: a client-side quiz viewer.
-- JS numbers are modelled as exact naturals (all quantities in the program are
-- small non-negative integers; Math.round on a non-negative rational is
-- round-half-up, modelled by jsRound).  A JS value that is null/undefined in a
-- slot of the answers array is modelled as (none : Option Nat).  A TypeError
-- thrown by dereferencing undefined is modelled as Except.error JsError.typeError.

namespace QuizApp

/-- Question entity of the content model (app.js: quiz entries of a lesson). -/
structure Question where
  stem : String
  options : List String
  answerIndex : Nat
  explanation : String
deriving Repr, DecidableEq

/-- Lesson entity (summary is the ordered heading-to-text mapping). -/
structure Lesson where
  id : String
  title : String
  shortDescription : String
  summary : List (String × String)
  quiz : List Question
deriving Repr, DecidableEq

/-- Subject entity. -/
structure Subject where
  id : String
  title : String
  shortDescription : String
  lessons : List Lesson
deriving Repr, DecidableEq

/-- Course entity; JS `data.courses` is an object keyed by courseId. -/
structure Course where
  title : String
  color : String
  subjects : List Subject
deriving Repr, DecidableEq

/-- The loaded database: `data.courses` as an association list keyed by courseId. -/
structure Database where
  courses : List (String × Course)
deriving Repr, DecidableEq

/-- JS `this.data.courses[courseId]` (object property access, undefined when absent). -/
def lookupCourse (db : Database) (courseId : String) : Option Course :=
  (db.courses.find? (fun p => p.1 == courseId)).map (fun p => p.2)

/-- A thrown JS error; the only kind the modelled code can throw is a TypeError
from dereferencing undefined. -/
inductive JsError
  | typeError
deriving Repr, DecidableEq

/-- The id-chain resolution performed inline at the top of renderQuiz /
renderLessonDetail (app.js lines 180-184): `data.courses[courseId]`,
`course.subjects.find(...)`, `subject.lessons.find(...)`.  A missing entity means
the subsequent property access on undefined throws a TypeError. -/
def resolveLesson (db : Database) (courseId subjectId lessonId : String) :
    Except JsError Lesson :=
  match lookupCourse db courseId with
  | none => Except.error JsError.typeError
  | some course =>
    match course.subjects.find? (fun s => s.id == subjectId) with
    | none => Except.error JsError.typeError
    | some subject =>
      match subject.lessons.find? (fun l => l.id == lessonId) with
      | none => Except.error JsError.typeError
      | some lesson => Except.ok lesson

/-- The mutable closure state of one quiz attempt (app.js lines 185-186):
`currentQuestionIndex` and `userAnswers` (null = unanswered = none). -/
structure QuizState where
  quizData : List Question
  currentQuestionIndex : Nat
  userAnswers : List (Option Nat)
deriving Repr, DecidableEq

/-- Round-half-up of num/den for naturals, i.e. JS `Math.round(num/den)` for
non-negative operands (exact-rational model of JS float arithmetic). -/
def jsRound (num den : Nat) : Nat :=
  (2 * num + den) / (2 * den)

/-- The count accumulated by renderResults (app.js lines 261-275):
`if (userAnswers[index] === question.answerIndex) correctAnswers++`.
Out-of-range access yields undefined, which is never === a number. -/
def correctCount : List Question → List (Option Nat) → Nat
  | [], _ => 0
  | q :: qs, ans =>
    (if ans.headD none == some q.answerIndex then 1 else 0) + correctCount qs ans.tail

/-- The score triple rendered by renderResults (app.js line 277 and 282). -/
structure ScoreResult where
  correctCount : Nat
  total : Nat
  percentage : Nat
deriving Repr, DecidableEq

/-- score(): correct count, total, and `Math.round((correctAnswers / quizData.length) * 100)`. -/
def score (quizData : List Question) (answers : List (Option Nat)) : ScoreResult :=
  { correctCount := correctCount quizData answers,
    total := quizData.length,
    percentage := jsRound (100 * correctCount quizData answers) quizData.length }

/-- One review record of the results page (app.js lines 267-273). -/
structure ReviewEntry where
  stem : String
  chosenOptionText : String
  correctOptionText : String
deriving Repr, DecidableEq

/-- `userAnswers[index] !== null ? question.options[userAnswers[index]] : 'Not Answered'`;
an out-of-range option index interpolates as the string "undefined" in JS. -/
def chosenText (q : Question) (a : Option Nat) : String :=
  match a with
  | some i => q.options.getD i "undefined"
  | none => "Not Answered"

/-- The record emitted for one incorrect/unanswered question (app.js lines 267-273). -/
def reviewEntryOf (q : Question) (a : Option Nat) : ReviewEntry :=
  { stem := q.stem,
    chosenOptionText := chosenText q a,
    correctOptionText := q.options.getD q.answerIndex "undefined" }

/-- review(): the list of records accumulated (in question order) by the
quizData.forEach loop of renderResults for the questions whose recorded answer
is not the correct one. -/
def review : List Question → List (Option Nat) → List ReviewEntry
  | [], _ => []
  | q :: qs, ans =>
    if ans.headD none == some q.answerIndex then review qs ans.tail
    else reviewEntryOf q (ans.headD none) :: review qs ans.tail

/-- Specification-side predicate: the recorded answer for index i equals
question i's answerIndex (an unanswered or out-of-range slot is never correct). -/
def correctAt (quizData : List Question) (answers : List (Option Nat)) (i : Nat) : Bool :=
  match quizData.get? i with
  | some q => answers.getD i none == some q.answerIndex
  | none => false

theorem getD_zero_eq_headD (l : List (Option Nat)) : l.getD 0 none = l.headD none := by
  cases l <;> rfl

theorem getD_succ_eq_tail_getD (l : List (Option Nat)) (i : Nat) :
    l.getD (i + 1) none = l.tail.getD i none := by
  cases l <;> rfl

theorem correctAt_cons_zero (q : Question) (qs : List Question) (ans : List (Option Nat)) :
    correctAt (q :: qs) ans 0 = (ans.headD none == some q.answerIndex) := by
  cases ans <;> rfl

theorem correctAt_cons_succ (q : Question) (qs : List Question) (ans : List (Option Nat))
    (i : Nat) : correctAt (q :: qs) ans (i + 1) = correctAt qs ans.tail i := by
  cases ans <;> rfl

theorem correctCount_eq_countP (quizData : List Question) (answers : List (Option Nat)) :
    correctCount quizData answers
      = List.countP (correctAt quizData answers) (List.range quizData.length) := by
  induction quizData generalizing answers with
  | nil => simp [correctCount]
  | cons q qs ih =>
    rw [List.length_cons, List.range_succ_eq_map, List.countP_cons, List.countP_map]
    have hcomp : (correctAt (q :: qs) answers ∘ Nat.succ) = correctAt qs answers.tail := by
      funext i
      exact correctAt_cons_succ q qs answers i
    rw [hcomp, correctAt_cons_zero, ← ih answers.tail]
    simp [correctCount, Nat.add_comm]

theorem correctCount_le_length (quizData : List Question) (answers : List (Option Nat)) :
    correctCount quizData answers ≤ quizData.length := by
  induction quizData generalizing answers with
  | nil => simp [correctCount]
  | cons q qs ih =>
    simp only [correctCount, List.length_cons]
    have h := ih answers.tail
    split <;> omega

theorem review_eq_filter_map (quizData : List Question) (answers : List (Option Nat))
    (h : answers.length = quizData.length) :
    review quizData answers
      = ((quizData.zip answers).filter
          (fun p => !(p.2 == some p.1.answerIndex))).map (fun p => reviewEntryOf p.1 p.2) := by
  induction quizData generalizing answers with
  | nil => simp [review]
  | cons q qs ih =>
    cases answers with
    | nil => simp at h
    | cons a t =>
      have ht : t.length = qs.length := by simpa using h
      simp only [List.zip_cons_cons, List.filter_cons, review, List.headD, List.tail_cons]
      cases hb : (a == some q.answerIndex) with
      | true => simp [hb, ih t ht]
      | false => simp [hb, ih t ht]

/-- The tagged state objects pushed on `navigationStack` (the `{type: ...}`
objects of app.js); the renderView switch also accepts a courses variant. -/
inductive ViewState
  | courses
  | subjects (courseId : String)
  | lessons (courseId subjectId : String)
  | lesson (courseId subjectId lessonId : String)
  | quiz (courseId subjectId lessonId : String)
deriving Repr, DecidableEq

/-- Which screen is currently rendered in the app container, together with the
live quiz-session closure state when a quiz or results screen is shown.
optionsDisabled records whether handleAnswerSelection has disabled the option
buttons of the currently rendered question (they are re-rendered enabled on
every renderCurrentQuestion). -/
inductive Display
  | coursesView
  | subjectsView (courseId : String)
  | lessonsView (courseId subjectId : String)
  | lessonView (courseId subjectId lessonId : String)
  | quizView (courseId subjectId lessonId : String) (qs : QuizState) (optionsDisabled : Bool)
  | resultsView (courseId subjectId lessonId : String) (qs : QuizState)
deriving Repr, DecidableEq

/-- The application state: the rendered screen and the navigation stack.
The stack is modelled with its top at the head (JS push appends, pop removes
the last element). -/
structure AppState where
  display : Display
  navStack : List ViewState
deriving Repr, DecidableEq

/-- updateView (app.js lines 30-38): push the state if one was passed
(`if (state) ...`); renderCourseList passes none. -/
def pushState (st : Option ViewState) (stack : List ViewState) : List ViewState :=
  match st with
  | none => stack
  | some s => s :: stack

/-- JS `this.navigationStack[this.navigationStack.length-2]` (app.js line 292):
the second-from-top entry when the stack has at least two entries, undefined
(none) otherwise (a negative JS index reads undefined). -/
def stackSecond : List ViewState → Option ViewState
  | _ :: b :: _ => some b
  | _ => none

/-- renderCourseList (app.js lines 77-95): renders the course grid and calls
updateView with no state, so nothing is pushed. -/
def renderCourseList (app : AppState) : AppState :=
  { display := Display.coursesView, navStack := app.navStack }

/-- renderSubjectList (app.js lines 98-118): dereferences
`data.courses[courseId]` (TypeError when absent), renders, and pushes
the subjects state. -/
def renderSubjectList (db : Database) (courseId : String) (app : AppState) :
    Except JsError AppState :=
  match lookupCourse db courseId with
  | none => Except.error JsError.typeError
  | some _ =>
    Except.ok { display := Display.subjectsView courseId,
                navStack := pushState (some (ViewState.subjects courseId)) app.navStack }

/-- renderLessonList (app.js lines 121-142): dereferences course then subject,
renders, and pushes the lessons state. -/
def renderLessonList (db : Database) (courseId subjectId : String) (app : AppState) :
    Except JsError AppState :=
  match lookupCourse db courseId with
  | none => Except.error JsError.typeError
  | some course =>
    match course.subjects.find? (fun s => s.id == subjectId) with
    | none => Except.error JsError.typeError
    | some _ =>
      Except.ok { display := Display.lessonsView courseId subjectId,
                  navStack := pushState (some (ViewState.lessons courseId subjectId)) app.navStack }

/-- renderLessonDetail (app.js lines 145-177): resolves the full id chain
(TypeError when it fails), renders, and pushes the lesson state. -/
def renderLessonDetail (db : Database) (courseId subjectId lessonId : String)
    (app : AppState) : Except JsError AppState :=
  match resolveLesson db courseId subjectId lessonId with
  | Except.error e => Except.error e
  | Except.ok _ =>
    Except.ok { display := Display.lessonView courseId subjectId lessonId,
                navStack := pushState (some (ViewState.lesson courseId subjectId lessonId)) app.navStack }

/-- renderCurrentQuestion (app.js lines 188-213): reads
`quizData[currentQuestionIndex]` (a JS array index is defined exactly when it is
in bounds; on an out-of-range index the subsequent `question.options` access
throws), renders the question with all option buttons enabled, and pushes the
quiz state via updateView. -/
def renderCurrentQuestion (courseId subjectId lessonId : String) (qs : QuizState)
    (stack : List ViewState) : Except JsError AppState :=
  if qs.currentQuestionIndex < qs.quizData.length then
    Except.ok { display := Display.quizView courseId subjectId lessonId qs false,
                navStack := pushState (some (ViewState.quiz courseId subjectId lessonId)) stack }
  else Except.error JsError.typeError

/-- The session initialization of renderQuiz (app.js lines 185-186):
`currentQuestionIndex = 0`, `userAnswers = new Array(quizData.length).fill(null)`. -/
def freshSession (lsn : Lesson) : QuizState :=
  { quizData := lsn.quiz, currentQuestionIndex := 0,
    userAnswers := List.replicate lsn.quiz.length none }

/-- renderQuiz (app.js lines 180-186, 297): resolve the id chain, create the
fresh session and render question 0. -/
def renderQuiz (db : Database) (courseId subjectId lessonId : String) (app : AppState) :
    Except JsError AppState :=
  match resolveLesson db courseId subjectId lessonId with
  | Except.error e => Except.error e
  | Except.ok lesson =>
    renderCurrentQuestion courseId subjectId lessonId (freshSession lesson) app.navStack

/-- renderResults (app.js lines 260-295): computes the score and review from the
session (read-only over userAnswers and quizData) and calls updateView with
`navigationStack[length-2]`, pushing that entry when it exists. -/
def renderResults (courseId subjectId lessonId : String) (qs : QuizState)
    (stack : List ViewState) : AppState :=
  { display := Display.resultsView courseId subjectId lessonId qs,
    navStack := pushState (stackSecond stack) stack }

/-- handleAnswerSelection (app.js lines 226-242): unconditionally records the
selected index at the current question (`userAnswers[currentQuestionIndex] =
selectedIndex`); the DOM option buttons are then disabled. -/
def handleAnswerSelection (qs : QuizState) (selectedIndex : Nat) : QuizState :=
  { qs with userAnswers := qs.userAnswers.set qs.currentQuestionIndex (some selectedIndex) }

/-- handleNext (app.js lines 244-251): advance and re-render while not at the
last question (`currentQuestionIndex < quizData.length - 1`, with JS -1 for an
empty quiz matching Nat truncated subtraction here), otherwise render results. -/
def handleNext (courseId subjectId lessonId : String) (qs : QuizState)
    (stack : List ViewState) : Except JsError AppState :=
  if qs.currentQuestionIndex < qs.quizData.length - 1 then
    renderCurrentQuestion courseId subjectId lessonId
      { qs with currentQuestionIndex := qs.currentQuestionIndex + 1 } stack
  else
    Except.ok (renderResults courseId subjectId lessonId qs stack)

/-- renderView (app.js lines 56-74): dispatch a state object to its render
operation. -/
def renderView (db : Database) (st : ViewState) (app : AppState) : Except JsError AppState :=
  match st with
  | ViewState.courses => Except.ok (renderCourseList app)
  | ViewState.subjects c => renderSubjectList db c app
  | ViewState.lessons c s => renderLessonList db c s app
  | ViewState.lesson c s l => renderLessonDetail db c s l app
  | ViewState.quiz c s l => renderQuiz db c s l app

/-- handleBack (app.js lines 41-53): pop the current state (a pop on an empty
JS array is a harmless no-op); if history remains, pop again to get the
previous state and render it (the render pushes it back), otherwise render the
course list. -/
def handleBack (db : Database) (app : AppState) : Except JsError AppState :=
  match app.navStack with
  | [] => Except.ok (renderCourseList { app with navStack := [] })
  | _ :: rest =>
    match rest with
    | [] => Except.ok (renderCourseList { app with navStack := [] })
    | prev :: rest2 => renderView db prev { app with navStack := rest2 }

/-- The user interactions wired up by the render functions. -/
inductive Event
  | clickCourse (courseId : String)
  | clickSubject (subjectId : String)
  | clickLesson (lessonId : String)
  | clickTest
  | clickOption (i : Nat)
  | clickNext
  | clickPrev
  | clickRetry
  | clickBack
deriving Repr, DecidableEq

/-- One user interaction processed to completion: dispatches the event to the
handler the currently rendered screen has attached for it.  A disabled DOM
button (an option button after handleAnswerSelection ran, or the Previous
button at question 0) fires no event, hence those branches leave the state
unchanged; controls that do not exist on the current screen also do nothing. -/
def step (db : Database) (app : AppState) (e : Event) : Except JsError AppState :=
  match app.display, e with
  | Display.coursesView, Event.clickCourse c => renderSubjectList db c app
  | Display.subjectsView c, Event.clickSubject s => renderLessonList db c s app
  | Display.subjectsView _, Event.clickBack => handleBack db app
  | Display.lessonsView c s, Event.clickLesson l => renderLessonDetail db c s l app
  | Display.lessonsView _ _, Event.clickBack => handleBack db app
  | Display.lessonView c s l, Event.clickTest => renderQuiz db c s l app
  | Display.lessonView _ _ _, Event.clickBack => handleBack db app
  | Display.quizView c s l qs dis, Event.clickOption i =>
    if dis then Except.ok app
    else Except.ok { display := Display.quizView c s l (handleAnswerSelection qs i) true,
                     navStack := app.navStack }
  | Display.quizView c s l qs _, Event.clickNext => handleNext c s l qs app.navStack
  | Display.quizView c s l qs _, Event.clickPrev =>
    if 0 < qs.currentQuestionIndex then
      renderCurrentQuestion c s l
        { qs with currentQuestionIndex := qs.currentQuestionIndex - 1 } app.navStack
    else Except.ok app
  | Display.quizView _ _ _ _ _, Event.clickBack => handleBack db app
  | Display.resultsView c s l _, Event.clickRetry => renderQuiz db c s l app
  | Display.resultsView _ _ _ _, Event.clickBack => handleBack db app
  | _, _ => Except.ok app

/-- Run a sequence of user interactions; a thrown error aborts the run. -/
def run (db : Database) (app : AppState) : List Event → Except JsError AppState
  | [] => Except.ok app
  | e :: es =>
    match step db app e with
    | Except.ok app' => run db app' es
    | Except.error er => Except.error er

/-- The state after init (app.js lines 11-27): the course list is rendered and
nothing has been pushed. -/
def initApp : AppState :=
  { display := Display.coursesView, navStack := [] }

/-- The application states reachable from startup by user interactions that do
not throw. -/
inductive Reachable (db : Database) : AppState → Prop
  | init : Reachable db initApp
  | step (app : AppState) (e : Event) (app' : AppState) :
      Reachable db app → step db app e = Except.ok app' → Reachable db app'

/-- Concrete three-question fixture matching the spec scenario: correct
indices [1, 0, 2]. -/
def q0 : Question :=
  { stem := "Q1", options := ["A", "B", "C"], answerIndex := 1, explanation := "E1" }

/-- Second fixture question. -/
def q1 : Question :=
  { stem := "Q2", options := ["A", "B", "C"], answerIndex := 0, explanation := "E2" }

/-- Third fixture question. -/
def q2 : Question :=
  { stem := "Q3", options := ["A", "B", "C"], answerIndex := 2, explanation := "E3" }

/-- Fixture lesson with the three questions. -/
def lesson1 : Lesson :=
  { id := "l1", title := "L", shortDescription := "d", summary := [], quiz := [q0, q1, q2] }

/-- Fixture subject. -/
def subject1 : Subject :=
  { id := "s1", title := "S", shortDescription := "d", lessons := [lesson1] }

/-- Fixture course. -/
def course1 : Course :=
  { title := "C", color := "blue", subjects := [subject1] }

/-- Fixture database with the single course. -/
def db1 : Database :=
  { courses := [("c1", course1)] }

/-- A database with no courses at all. -/
def dbEmpty : Database :=
  { courses := [] }

/-- The spec scenario answers: user answers [1, 0, 1]. -/
def scenarioAnswers : List (Option Nat) := [some 1, some 0, some 1]

/-- The recorded answers of the live session, if the current screen carries one. -/
def sessionAnswers : Display → Option (List (Option Nat))
  | Display.quizView _ _ _ qs _ => some qs.userAnswers
  | Display.resultsView _ _ _ qs => some qs.userAnswers
  | _ => none

/-- The recorded answers after running a sequence of interactions from startup. -/
def answersAfter (db : Database) (events : List Event) : Option (List (Option Nat)) :=
  match run db initApp events with
  | Except.ok app => sessionAnswers app.display
  | Except.error _ => none

/-- The navigation stack after running a sequence of interactions from startup. -/
def stackAfter (db : Database) (events : List Event) : Option (List ViewState) :=
  match run db initApp events with
  | Except.ok app => some app.navStack
  | Except.error _ => none

/-- Claim C1: for every quiz session over a lesson with n ≥ 1 questions and any
answers array, score() returns total = n, correctCount = the number of indices
whose recorded answer equals that question's answerIndex (an unanswered slot
never counts), correctCount ≤ total, and percentage = round(correctCount/total*100)
with JS Math.round modelled as exact round-half-up (jsRound). -/
theorem C1_score_spec (quizData : List Question) (answers : List (Option Nat))
    (h : 1 ≤ quizData.length) :
    (score quizData answers).total = quizData.length ∧
    (score quizData answers).correctCount
      = List.countP (correctAt quizData answers) (List.range quizData.length) ∧
    (score quizData answers).correctCount ≤ (score quizData answers).total ∧
    (score quizData answers).percentage
      = jsRound (100 * (score quizData answers).correctCount) quizData.length :=
  ⟨rfl, correctCount_eq_countP quizData answers,
    correctCount_le_length quizData answers, rfl⟩

/-- Witness for C1 at the spec scenario: 3 questions with correct indices
[1,0,2], recorded answers [1,0,1]; score() = 2 of 3, 67 percent. -/
theorem C1_score_spec_witness :
    (1 ≤ lesson1.quiz.length ∧
      ((score lesson1.quiz scenarioAnswers).total = lesson1.quiz.length ∧
       (score lesson1.quiz scenarioAnswers).correctCount
         = List.countP (correctAt lesson1.quiz scenarioAnswers)
             (List.range lesson1.quiz.length) ∧
       (score lesson1.quiz scenarioAnswers).correctCount
         ≤ (score lesson1.quiz scenarioAnswers).total ∧
       (score lesson1.quiz scenarioAnswers).percentage
         = jsRound (100 * (score lesson1.quiz scenarioAnswers).correctCount)
             lesson1.quiz.length)) ∧
    score lesson1.quiz scenarioAnswers = { correctCount := 2, total := 3, percentage := 67 } :=
  ⟨⟨by decide, C1_score_spec lesson1.quiz scenarioAnswers (by decide)⟩, by decide⟩

/-- Claim C2: review() produces, in question order, exactly one record
{stem, chosenOptionText | "Not Answered", correctOptionText} for each question
whose recorded answer is unanswered or differs from its answerIndex, and no
record for a correctly answered question; an unanswered slot renders as
"Not Answered". -/
theorem C2_review_spec (quizData : List Question) (answers : List (Option Nat))
    (h : answers.length = quizData.length) :
    review quizData answers
      = ((quizData.zip answers).filter
          (fun p => !(p.2 == some p.1.answerIndex))).map (fun p => reviewEntryOf p.1 p.2) ∧
    (∀ q : Question, chosenText q none = "Not Answered") :=
  ⟨review_eq_filter_map quizData answers h, fun _ => rfl⟩

/-- Witness for C2 at the spec scenario: answers [1,0,1] against correct
[1,0,2] yields exactly one record, for question 3, with chosen text
options[1] = "B" and correct text options[2] = "C". -/
theorem C2_review_spec_witness :
    (scenarioAnswers.length = lesson1.quiz.length ∧
      (review lesson1.quiz scenarioAnswers
        = ((lesson1.quiz.zip scenarioAnswers).filter
            (fun p => !(p.2 == some p.1.answerIndex))).map (fun p => reviewEntryOf p.1 p.2) ∧
       (∀ q : Question, chosenText q none = "Not Answered"))) ∧
    review lesson1.quiz scenarioAnswers
      = [{ stem := "Q3", chosenOptionText := "B", correctOptionText := "C" }] :=
  ⟨⟨by decide, C2_review_spec lesson1.quiz scenarioAnswers (by decide)⟩, by decide⟩

/-- Counterexample to claim C3: the session does not enforce the at-most-once
rule.  After answering question 0 with option 0 (answers = [0, null, null]),
navigating next and back re-renders the question with enabled controls, and a
second selection overwrites the recorded answer to option 1. -/
theorem C3_counterexample :
    answersAfter db1 [Event.clickCourse "c1", Event.clickSubject "s1", Event.clickLesson "l1",
        Event.clickTest, Event.clickOption 0] = some [some 0, none, none] ∧
    answersAfter db1 [Event.clickCourse "c1", Event.clickSubject "s1", Event.clickLesson "l1",
        Event.clickTest, Event.clickOption 0, Event.clickNext, Event.clickPrev,
        Event.clickOption 1] = some [some 1, none, none] := by
  decide

/-- Claim C3 as amended: re-selection is blocked only by the view (the option
buttons are disabled for the remainder of the current render, so a further
click is a no-op), while the session itself records any selection reaching
handleAnswerSelection unconditionally, overwriting answers[currentIndex];
after navigating away and back the controls are re-enabled and the recorded
answer can change. -/
theorem C3_amended (db : Database) (app : AppState) (c s l : String) (qs : QuizState)
    (i : Nat) :
    (app.display = Display.quizView c s l qs true →
      step db app (Event.clickOption i) = Except.ok app) ∧
    (app.display = Display.quizView c s l qs false →
      step db app (Event.clickOption i)
        = Except.ok { display := Display.quizView c s l (handleAnswerSelection qs i) true,
                      navStack := app.navStack }) := by
  cases app with
  | mk d stk =>
    constructor
    · intro h
      subst h
      rfl
    · intro h
      subst h
      rfl

/-- A fresh session over the fixture lesson, for witnesses. -/
def qsDemo : QuizState :=
  { quizData := lesson1.quiz, currentQuestionIndex := 0, userAnswers := [none, none, none] }

/-- Fixture app showing question 0 with its option buttons disabled. -/
def appDemoDisabled : AppState :=
  { display := Display.quizView "c1" "s1" "l1" qsDemo true, navStack := [] }

/-- Fixture app showing question 0 with its option buttons enabled. -/
def appDemoEnabled : AppState :=
  { display := Display.quizView "c1" "s1" "l1" qsDemo false, navStack := [] }

/-- Witness for the amended C3 at concrete inputs. -/
theorem C3_amended_witness :
    step db1 appDemoDisabled (Event.clickOption 2) = Except.ok appDemoDisabled ∧
    step db1 appDemoEnabled (Event.clickOption 2)
      = Except.ok { display := Display.quizView "c1" "s1" "l1" (handleAnswerSelection qsDemo 2) true,
                    navStack := appDemoEnabled.navStack } :=
  ⟨(C3_amended db1 appDemoDisabled "c1" "s1" "l1" qsDemo 2).1 rfl,
   (C3_amended db1 appDemoEnabled "c1" "s1" "l1" qsDemo 2).2 rfl⟩

/-- Claim C4: goBack() on an empty navigation stack renders the root Courses
view without error, and goBack() performed when exactly one state has been
pushed renders the root (the state that was current immediately before that
single push), not a state two entries back. -/
theorem C4_goBack (db : Database) (app : AppState) :
    (app.navStack = [] →
      handleBack db app = Except.ok { display := Display.coursesView, navStack := [] }) ∧
    (∀ s1 : ViewState, app.navStack = [s1] →
      handleBack db app = Except.ok { display := Display.coursesView, navStack := [] }) := by
  cases app with
  | mk d stk =>
    constructor
    · intro h
      subst h
      rfl
    · intro s1 h
      subst h
      rfl

/-- Witness for C4: goBack from startup (empty stack) and goBack after the
single push of the Subjects state both land on the root Courses view. -/
theorem C4_goBack_witness :
    (handleBack db1 initApp = Except.ok { display := Display.coursesView, navStack := [] }) ∧
    (handleBack db1 { display := Display.subjectsView "c1",
                      navStack := [ViewState.subjects "c1"] }
      = Except.ok { display := Display.coursesView, navStack := [] }) :=
  ⟨(C4_goBack db1 initApp).1 rfl,
   (C4_goBack db1 { display := Display.subjectsView "c1",
                    navStack := [ViewState.subjects "c1"] }).2 (ViewState.subjects "c1") rfl⟩

/-- Counterexample to claim C5: on an id triple that does not resolve the quiz
construction does not fail with a recoverable NotFound condition; it throws a
TypeError (dereferencing undefined) which nothing catches, so no redirect to
the root Courses view happens and no render occurs at all. -/
theorem C5_counterexample :
    renderQuiz dbEmpty "c1" "s1" "l1" initApp = Except.error JsError.typeError := rfl

/-- Claim C5 as amended: for every id triple that does not resolve in the
content model, renderQuiz propagates the inline lookup failure as an uncaught
TypeError-style crash: no session is created and no fallback to the root view
occurs (dedicated getCourse/getSubject/getLesson helpers with NotFound
semantics do not exist in the code; the lookups are inline and unguarded). -/
theorem C5_amended (db : Database) (c s l : String) (app : AppState) (e : JsError)
    (h : resolveLesson db c s l = Except.error e) :
    renderQuiz db c s l app = Except.error e := by
  unfold renderQuiz
  rw [h]

/-- Witness for the amended C5: the empty database resolves nothing and the
quiz render crashes. -/
theorem C5_amended_witness :
    resolveLesson dbEmpty "c1" "s1" "l1" = Except.error JsError.typeError ∧
    renderQuiz dbEmpty "c1" "s1" "l1" initApp = Except.error JsError.typeError :=
  ⟨rfl, C5_amended dbEmpty "c1" "s1" "l1" initApp JsError.typeError rfl⟩

theorem renderCurrentQuestion_ok (c s l : String) (qs : QuizState) (stack : List ViewState)
    (app' : AppState) (h : renderCurrentQuestion c s l qs stack = Except.ok app') :
    app' = { display := Display.quizView c s l qs false,
             navStack := ViewState.quiz c s l :: stack } ∧
    qs.currentQuestionIndex < qs.quizData.length := by
  unfold renderCurrentQuestion at h
  split at h
  case isTrue hc => exact ⟨(Except.ok.inj h).symm, hc⟩
  case isFalse hc => exact Except.noConfusion h

/-- The session invariant of the spec: whenever a question screen is rendered,
the current index is a valid question index. -/
def quizIndexInvariant (app : AppState) : Prop :=
  ∀ (c s l : String) (qs : QuizState) (dis : Bool),
    app.display = Display.quizView c s l qs dis →
      qs.currentQuestionIndex < qs.quizData.length

/-- The in-quiz interactions the C6 claim quantifies over. -/
def isQuizEvent (e : Event) : Prop :=
  e = Event.clickNext ∨ e = Event.clickPrev ∨ ∃ j : Nat, e = Event.clickOption j

theorem quizIndexInvariant_not_quiz (app : AppState)
    (h : ∀ (c s l : String) (qs : QuizState) (dis : Bool),
      app.display ≠ Display.quizView c s l qs dis) :
    quizIndexInvariant app :=
  fun c s l qs dis hd => absurd hd (h c s l qs dis)

theorem step_quizEvent_invariant (db : Database) (app app' : AppState) (e : Event)
    (he : isQuizEvent e) (hstep : step db app e = Except.ok app')
    (hinv : quizIndexInvariant app) : quizIndexInvariant app' := by
  obtain ⟨d, stk⟩ := app
  have hok : ∀ X : AppState, (Except.ok X : Except JsError AppState) = Except.ok app' →
      quizIndexInvariant X → quizIndexInvariant app' := by
    intro X hX hXi
    rw [← Except.ok.inj hX]
    exact hXi
  have hrcq : ∀ (c s l : String) (qs : QuizState) (stack : List ViewState),
      renderCurrentQuestion c s l qs stack = Except.ok app' → quizIndexInvariant app' := by
    intro c s l qs stack hr
    obtain ⟨heq, hlt⟩ := renderCurrentQuestion_ok c s l qs stack app' hr
    subst heq
    intro c' s' l' qs' dis' hd
    injection hd with h1 h2 h3 h4 h5
    subst h4
    exact hlt
  rcases he with rfl | rfl | ⟨j, rfl⟩ <;> cases d <;> simp only [step] at hstep
  case mk.inl.quizView c s l qs dis =>
    unfold handleNext at hstep
    split at hstep
    · exact hrcq _ _ _ _ _ hstep
    · refine hok _ hstep ?_
      exact quizIndexInvariant_not_quiz _ (fun c' s' l' qs' dis' hd => Display.noConfusion hd)
  case mk.inr.inl.quizView c s l qs dis =>
    split at hstep
    · exact hrcq _ _ _ _ _ hstep
    · exact hok _ hstep hinv
  case mk.inr.inr.intro.quizView c s l qs dis =>
    split at hstep
    · exact hok _ hstep hinv
    · refine hok _ hstep ?_
      intro c' s' l' qs' dis' hd
      injection hd with h1 h2 h3 h4 h5
      subst h4
      exact hinv c s l qs dis rfl
  all_goals exact hok _ hstep hinv

theorem run_quizEvents_invariant (db : Database) (es : List Event) :
    ∀ app app' : AppState, (∀ e ∈ es, isQuizEvent e) → quizIndexInvariant app →
      run db app es = Except.ok app' → quizIndexInvariant app' := by
  induction es with
  | nil =>
    intro app app' _ hinv hrun
    rw [← Except.ok.inj hrun]
    exact hinv
  | cons e es ih =>
    intro app app' hall hinv hrun
    unfold run at hrun
    cases hs : step db app e with
    | error er => rw [hs] at hrun; exact Except.noConfusion hrun
    | ok app1 =>
      rw [hs] at hrun
      exact ih app1 app' (fun x hx => hall x (List.mem_cons_of_mem e hx))
        (step_quizEvent_invariant db app app1 e (hall e (List.mem_cons_self e es)) hs hinv)
        hrun

/-- Claim C6: with a valid current index, prev() at index 0 is an exact no-op,
next() at the last question does not advance the index (it renders the results
screen with the session unchanged), and under every sequence of next/prev/
selectAnswer interactions the rendered question index stays within
[0, questionCount-1]. -/
theorem C6_index_bounds (db : Database) (app : AppState) (c s l : String) (qs : QuizState)
    (dis : Bool)
    (h : app.display = Display.quizView c s l qs dis)
    (hidx : qs.currentQuestionIndex < qs.quizData.length) :
    (qs.currentQuestionIndex = 0 → step db app Event.clickPrev = Except.ok app) ∧
    (qs.quizData.length - 1 ≤ qs.currentQuestionIndex →
      step db app Event.clickNext
        = Except.ok (renderResults c s l qs app.navStack)) ∧
    (∀ es : List Event, (∀ e ∈ es, isQuizEvent e) →
      ∀ app', run db app es = Except.ok app' → quizIndexInvariant app') := by
  obtain ⟨d, stk⟩ := app
  subst h
  have hinv : quizIndexInvariant ⟨Display.quizView c s l qs dis, stk⟩ := by
    intro c' s' l' qs' dis' hd
    injection hd with h1 h2 h3 h4 h5
    subst h4
    exact hidx
  refine ⟨?_, ?_, ?_⟩
  · intro h0
    simp only [step]
    rw [if_neg (by omega)]
  · intro hlast
    simp only [step]
    unfold handleNext
    rw [if_neg (by omega)]
  · intro es hall app' hrun
    exact run_quizEvents_invariant db es _ app' hall hinv hrun

/-- Witness for C6 at a fresh session over the fixture lesson. -/
theorem C6_index_bounds_witness :
    (qsDemo.currentQuestionIndex = 0 →
      step db1 appDemoEnabled Event.clickPrev = Except.ok appDemoEnabled) ∧
    (qsDemo.quizData.length - 1 ≤ qsDemo.currentQuestionIndex →
      step db1 appDemoEnabled Event.clickNext
        = Except.ok (renderResults "c1" "s1" "l1" qsDemo appDemoEnabled.navStack)) ∧
    (∀ es : List Event, (∀ e ∈ es, isQuizEvent e) →
      ∀ app', run db1 appDemoEnabled es = Except.ok app' → quizIndexInvariant app') :=
  C6_index_bounds db1 appDemoEnabled "c1" "s1" "l1" qsDemo false rfl (by decide)

/-- Claim C7: clicking Retry on the results screen calls renderQuiz for the
same lesson, producing a session equal to a freshly started one regardless of
the prior session state: all answers unanswered, index 0, question 0 rendered. -/
theorem C7_retry (db : Database) (app : AppState) (c s l : String) (qs : QuizState)
    (lsn : Lesson)
    (h : app.display = Display.resultsView c s l qs)
    (hres : resolveLesson db c s l = Except.ok lsn)
    (hq : 0 < lsn.quiz.length) :
    step db app Event.clickRetry = renderQuiz db c s l app ∧
    step db app Event.clickRetry
      = Except.ok { display := Display.quizView c s l (freshSession lsn) false,
                    navStack := ViewState.quiz c s l :: app.navStack } ∧
    (freshSession lsn).userAnswers = List.replicate lsn.quiz.length none ∧
    (freshSession lsn).currentQuestionIndex = 0 := by
  obtain ⟨d, stk⟩ := app
  subst h
  refine ⟨rfl, ?_, rfl, rfl⟩
  simp only [step, renderQuiz, hres]
  unfold renderCurrentQuestion
  rw [if_pos]
  · rfl
  · simpa [freshSession] using hq

/-- The session state after completing the fixture quiz. -/
def qsDone : QuizState :=
  { quizData := lesson1.quiz, currentQuestionIndex := 2,
    userAnswers := [some 1, some 0, some 1] }

/-- Fixture app showing the results screen for the completed fixture session. -/
def appResults : AppState :=
  { display := Display.resultsView "c1" "s1" "l1" qsDone,
    navStack := [ViewState.quiz "c1" "s1" "l1", ViewState.lesson "c1" "s1" "l1"] }

/-- Witness for C7: retry from the fixture results screen restarts the quiz
with a completely fresh session. -/
theorem C7_retry_witness :
    step db1 appResults Event.clickRetry = renderQuiz db1 "c1" "s1" "l1" appResults ∧
    step db1 appResults Event.clickRetry
      = Except.ok { display := Display.quizView "c1" "s1" "l1" (freshSession lesson1) false,
                    navStack := ViewState.quiz "c1" "s1" "l1" :: appResults.navStack } ∧
    (freshSession lesson1).userAnswers = List.replicate lesson1.quiz.length none ∧
    (freshSession lesson1).currentQuestionIndex = 0 :=
  C7_retry db1 appResults "c1" "s1" "l1" qsDone lesson1 rfl rfl (by decide)

/-- Claim C8: finishing the quiz (next() on the last question) computes the
score without mutating the session: the results screen carries exactly the
session state qs that existed before, so the answers array and currentIndex
are identical before and after, and since score is a pure function of that
unchanged data, repeated evaluation yields the same ScoreResult. -/
theorem C8_score_frame (db : Database) (app : AppState) (c s l : String) (qs : QuizState)
    (dis : Bool)
    (h : app.display = Display.quizView c s l qs dis)
    (hlast : qs.quizData.length - 1 ≤ qs.currentQuestionIndex) :
    step db app Event.clickNext
      = Except.ok { display := Display.resultsView c s l qs,
                    navStack := pushState (stackSecond app.navStack) app.navStack } ∧
    sessionAnswers (Display.resultsView c s l qs) = some qs.userAnswers := by
  obtain ⟨d, stk⟩ := app
  subst h
  refine ⟨?_, rfl⟩
  simp only [step]
  unfold handleNext
  rw [if_neg (by omega)]
  rfl

/-- Fixture app at the last question of the fixture quiz, after the three
question renders pushed three quiz states. -/
def appLastQ : AppState :=
  { display := Display.quizView "c1" "s1" "l1" qsDone true,
    navStack := [ViewState.quiz "c1" "s1" "l1", ViewState.quiz "c1" "s1" "l1",
                 ViewState.quiz "c1" "s1" "l1", ViewState.lesson "c1" "s1" "l1",
                 ViewState.lessons "c1" "s1", ViewState.subjects "c1"] }

/-- Witness for C8 at the fixture session. -/
theorem C8_score_frame_witness :
    step db1 appLastQ Event.clickNext
      = Except.ok { display := Display.resultsView "c1" "s1" "l1" qsDone,
                    navStack := pushState (stackSecond appLastQ.navStack) appLastQ.navStack } ∧
    sessionAnswers (Display.resultsView "c1" "s1" "l1" qsDone) = some qsDone.userAnswers :=
  C8_score_frame db1 appLastQ "c1" "s1" "l1" qsDone true rfl (by decide)

/-- A complete pass through the fixture quiz: navigate to the quiz, answer all
three questions, and click Finish. -/
def fullQuizEvents : List Event :=
  [Event.clickCourse "c1", Event.clickSubject "s1", Event.clickLesson "l1", Event.clickTest,
   Event.clickOption 1, Event.clickNext, Event.clickOption 0, Event.clickNext,
   Event.clickOption 2, Event.clickNext]

/-- Counterexample to claim C9: when Finish is clicked after a three-question
run, the entry renderResults pushes (navigationStack[length-2]) is a quiz
state pushed by the previous question render, not the lesson-detail state:
the final stack's top is ViewState.quiz, and the single lesson-detail entry
sits four positions down. -/
theorem C9_counterexample :
    stackAfter db1 fullQuizEvents
      = some [ViewState.quiz "c1" "s1" "l1", ViewState.quiz "c1" "s1" "l1",
              ViewState.quiz "c1" "s1" "l1", ViewState.quiz "c1" "s1" "l1",
              ViewState.lesson "c1" "s1" "l1", ViewState.lessons "c1" "s1",
              ViewState.subjects "c1"] := by
  decide

/-- Claim C9 as amended: finishing the quiz pushes navigationStack[length-2]
(the second-from-top entry) for the results screen rather than a distinct
results state; since every question render pushes a quiz entry, that entry is
the quiz state pushed by the previous render whenever more than one question
render occurred (the lesson-detail entry only when there was exactly one).
Consequently goBack() from the results screen pops back to the quiz state and
re-renders it, starting a fresh session at question 0 instead of returning to
the lesson view. -/
theorem C9_amended (db : Database) (app : AppState) (c s l : String) (qs : QuizState)
    (dis : Bool) (st2 : ViewState) (rest : List ViewState) (lsn : Lesson)
    (h : app.display = Display.quizView c s l qs dis)
    (hstack : app.navStack = ViewState.quiz c s l :: st2 :: rest)
    (hlast : qs.quizData.length - 1 ≤ qs.currentQuestionIndex)
    (hres : resolveLesson db c s l = Except.ok lsn)
    (hq : 0 < lsn.quiz.length) :
    step db app Event.clickNext
      = Except.ok { display := Display.resultsView c s l qs,
                    navStack := st2 :: ViewState.quiz c s l :: st2 :: rest } ∧
    step db { display := Display.resultsView c s l qs,
              navStack := st2 :: ViewState.quiz c s l :: st2 :: rest } Event.clickBack
      = Except.ok { display := Display.quizView c s l (freshSession lsn) false,
                    navStack := ViewState.quiz c s l :: st2 :: rest } := by
  obtain ⟨d, stk⟩ := app
  subst h
  subst hstack
  constructor
  · simp only [step]
    unfold handleNext
    rw [if_neg (by omega)]
    rfl
  · simp only [step, handleBack, renderView, renderQuiz, hres]
    unfold renderCurrentQuestion
    rw [if_pos]
    · rfl
    · simpa [freshSession] using hq

/-- Witness for the amended C9 at the fixture state reached after the three
question renders of a full pass. -/
theorem C9_amended_witness :
    step db1 appLastQ Event.clickNext
      = Except.ok { display := Display.resultsView "c1" "s1" "l1" qsDone,
                    navStack := ViewState.quiz "c1" "s1" "l1" :: ViewState.quiz "c1" "s1" "l1"
                      :: ViewState.quiz "c1" "s1" "l1"
                      :: [ViewState.quiz "c1" "s1" "l1", ViewState.lesson "c1" "s1" "l1",
                          ViewState.lessons "c1" "s1", ViewState.subjects "c1"] } ∧
    step db1 { display := Display.resultsView "c1" "s1" "l1" qsDone,
               navStack := ViewState.quiz "c1" "s1" "l1" :: ViewState.quiz "c1" "s1" "l1"
                 :: ViewState.quiz "c1" "s1" "l1"
                 :: [ViewState.quiz "c1" "s1" "l1", ViewState.lesson "c1" "s1" "l1",
                     ViewState.lessons "c1" "s1", ViewState.subjects "c1"] } Event.clickBack
      = Except.ok { display := Display.quizView "c1" "s1" "l1" (freshSession lesson1) false,
                    navStack := ViewState.quiz "c1" "s1" "l1"
                      :: ViewState.quiz "c1" "s1" "l1"
                      :: [ViewState.quiz "c1" "s1" "l1", ViewState.lesson "c1" "s1" "l1",
                          ViewState.lessons "c1" "s1", ViewState.subjects "c1"] } :=
  C9_amended db1 appLastQ "c1" "s1" "l1" qsDone true (ViewState.quiz "c1" "s1" "l1")
    [ViewState.quiz "c1" "s1" "l1", ViewState.lesson "c1" "s1" "l1",
     ViewState.lessons "c1" "s1", ViewState.subjects "c1"] lesson1 rfl rfl (by decide) rfl
    (by decide)

theorem noCourses_cons (v : ViewState) (stack : List ViewState)
    (hv : v ≠ ViewState.courses) (h : ViewState.courses ∉ stack) :
    ViewState.courses ∉ v :: stack := by
  intro hm
  rcases List.mem_cons.mp hm with hm1 | hm2
  · exact hv hm1.symm
  · exact h hm2

theorem renderSubjectList_stack (db : Database) (c : String) (app app' : AppState)
    (h : renderSubjectList db c app = Except.ok app') :
    app'.navStack = ViewState.subjects c :: app.navStack := by
  unfold renderSubjectList at h
  split at h
  · exact Except.noConfusion h
  · rw [← Except.ok.inj h]
    rfl

theorem renderLessonList_stack (db : Database) (c s : String) (app app' : AppState)
    (h : renderLessonList db c s app = Except.ok app') :
    app'.navStack = ViewState.lessons c s :: app.navStack := by
  unfold renderLessonList at h
  split at h
  · exact Except.noConfusion h
  · split at h
    · exact Except.noConfusion h
    · rw [← Except.ok.inj h]
      rfl

theorem renderLessonDetail_stack (db : Database) (c s l : String) (app app' : AppState)
    (h : renderLessonDetail db c s l app = Except.ok app') :
    app'.navStack = ViewState.lesson c s l :: app.navStack := by
  unfold renderLessonDetail at h
  split at h
  · exact Except.noConfusion h
  · rw [← Except.ok.inj h]
    rfl

theorem renderQuiz_stack (db : Database) (c s l : String) (app app' : AppState)
    (h : renderQuiz db c s l app = Except.ok app') :
    app'.navStack = ViewState.quiz c s l :: app.navStack := by
  unfold renderQuiz at h
  split at h
  · exact Except.noConfusion h
  · rw [(renderCurrentQuestion_ok _ _ _ _ _ _ h).1]

theorem renderView_stack (db : Database) (st : ViewState) (app app' : AppState)
    (h : renderView db st app = Except.ok app') :
    app'.navStack = app.navStack ∨
      ∃ v : ViewState, v ≠ ViewState.courses ∧ app'.navStack = v :: app.navStack := by
  cases st with
  | courses =>
    left
    rw [← Except.ok.inj h]
    rfl
  | subjects c =>
    right
    exact ⟨ViewState.subjects c, by simp, renderSubjectList_stack db c app app' h⟩
  | lessons c s =>
    right
    exact ⟨ViewState.lessons c s, by simp, renderLessonList_stack db c s app app' h⟩
  | lesson c s l =>
    right
    exact ⟨ViewState.lesson c s l, by simp, renderLessonDetail_stack db c s l app app' h⟩
  | quiz c s l =>
    right
    exact ⟨ViewState.quiz c s l, by simp, renderQuiz_stack db c s l app app' h⟩

theorem handleBack_noCourses (db : Database) (app app' : AppState)
    (hstep : handleBack db app = Except.ok app')
    (h : ViewState.courses ∉ app.navStack) : ViewState.courses ∉ app'.navStack := by
  obtain ⟨d, stk⟩ := app
  cases stk with
  | nil =>
    rw [← Except.ok.inj hstep]
    simp [renderCourseList]
  | cons x rest =>
    cases rest with
    | nil =>
      rw [← Except.ok.inj hstep]
      simp [renderCourseList]
    | cons prev rest2 =>
      have hrest2 : ViewState.courses ∉ rest2 := by
        intro hm
        exact h (List.mem_cons_of_mem x (List.mem_cons_of_mem prev hm))
      rcases renderView_stack db prev ⟨d, rest2⟩ app' hstep with heq | ⟨v, hv, heq⟩
      · rw [heq]
        exact hrest2
      · rw [heq]
        exact noCourses_cons v rest2 hv hrest2

theorem handleNext_noCourses (c s l : String) (qs : QuizState) (stack : List ViewState)
    (app' : AppState) (hstep : handleNext c s l qs stack = Except.ok app')
    (h : ViewState.courses ∉ stack) : ViewState.courses ∉ app'.navStack := by
  unfold handleNext at hstep
  split at hstep
  · rw [(renderCurrentQuestion_ok _ _ _ _ _ _ hstep).1]
    exact noCourses_cons _ _ (by simp) h
  · rw [← Except.ok.inj hstep]
    show ViewState.courses ∉ pushState (stackSecond stack) stack
    cases stack with
    | nil => exact h
    | cons a rest =>
      cases rest with
      | nil => exact h
      | cons b rest2 =>
        refine noCourses_cons b (a :: b :: rest2) ?_ h
        intro hb
        exact h (hb ▸ List.mem_cons_of_mem a (List.mem_cons_self b rest2))

theorem step_preserves_noCourses (db : Database) (app app' : AppState) (e : Event)
    (hstep : step db app e = Except.ok app')
    (h : ViewState.courses ∉ app.navStack) : ViewState.courses ∉ app'.navStack := by
  obtain ⟨d, stk⟩ := app
  cases d <;> cases e <;> simp only [step] at hstep <;>
    first
    | (rw [← Except.ok.inj hstep]; exact h)
    | exact (renderSubjectList_stack db _ _ _ hstep) ▸ noCourses_cons _ _ (by simp) h
    | exact (renderLessonList_stack db _ _ _ _ hstep) ▸ noCourses_cons _ _ (by simp) h
    | exact (renderLessonDetail_stack db _ _ _ _ _ hstep) ▸ noCourses_cons _ _ (by simp) h
    | exact (renderQuiz_stack db _ _ _ _ _ hstep) ▸ noCourses_cons _ _ (by simp) h
    | exact handleBack_noCourses db _ _ hstep h
    | exact handleNext_noCourses _ _ _ _ _ _ hstep h
    | (split at hstep <;>
        first
        | (rw [← Except.ok.inj hstep]; exact h)
        | (rw [(renderCurrentQuestion_ok _ _ _ _ _ _ hstep).1]
           exact noCourses_cons _ _ (by simp) h))

theorem reachable_noCourses (db : Database) (app : AppState) (h : Reachable db app) :
    ViewState.courses ∉ app.navStack := by
  induction h with
  | init => simp [initApp]
  | step a e a' hr hs ih => exact step_preserves_noCourses db a a' e hs ih

theorem renderView_display_courses (db : Database) (st : ViewState) (app app' : AppState)
    (h : renderView db st app = Except.ok app')
    (hd : app'.display = Display.coursesView) : st = ViewState.courses := by
  cases st with
  | courses => rfl
  | subjects c =>
    simp only [renderView] at h
    unfold renderSubjectList at h
    split at h
    · exact Except.noConfusion h
    · rw [← Except.ok.inj h] at hd
      exact Display.noConfusion hd
  | lessons c s =>
    simp only [renderView] at h
    unfold renderLessonList at h
    split at h
    · exact Except.noConfusion h
    · split at h
      · exact Except.noConfusion h
      · rw [← Except.ok.inj h] at hd
        exact Display.noConfusion hd
  | lesson c s l =>
    simp only [renderView] at h
    unfold renderLessonDetail at h
    split at h
    · exact Except.noConfusion h
    · rw [← Except.ok.inj h] at hd
      exact Display.noConfusion hd
  | quiz c s l =>
    simp only [renderView] at h
    unfold renderQuiz at h
    split at h
    · exact Except.noConfusion h
    · rw [(renderCurrentQuestion_ok _ _ _ _ _ _ h).1] at hd
      exact Display.noConfusion hd

/-- Claim C10: in every reachable application state the navigation stack never
contains the root Courses view state (renderCourseList pushes nothing, every
other render pushes its own non-root variant, and renderResults only re-pushes
an entry already on the stack), and consequently goBack() reaches the root
view only through its empty-stack branch: if handleBack lands on the Courses
view, the stack after the first pop was already empty. -/
theorem C10_no_root_on_stack (db : Database) (app : AppState) (h : Reachable db app) :
    ViewState.courses ∉ app.navStack ∧
    (∀ app', handleBack db app = Except.ok app' → app'.display = Display.coursesView →
      app.navStack.tail = []) := by
  have main := reachable_noCourses db app h
  refine ⟨main, ?_⟩
  intro app' hb hd
  obtain ⟨d, stk⟩ := app
  cases stk with
  | nil => rfl
  | cons x rest =>
    cases rest with
    | nil => rfl
    | cons prev rest2 =>
      have hprev : prev = ViewState.courses :=
        renderView_display_courses db prev ⟨d, rest2⟩ app' hb hd
      subst hprev
      exact absurd (List.mem_cons_of_mem x (List.mem_cons_self _ _)) main

/-- Witness for C10 at the initial state. -/
theorem C10_no_root_on_stack_witness :
    ViewState.courses ∉ initApp.navStack ∧
    (∀ app', handleBack db1 initApp = Except.ok app' → app'.display = Display.coursesView →
      initApp.navStack.tail = []) :=
  C10_no_root_on_stack db1 initApp Reachable.init

end QuizApp
